import Mathlib

/-!
Verification development for the session/MFA authority of the
`josechifflet/nodejs-rest-api` repository.

The TypeScript source is shallowly embedded: entity rows become Lean
structures, the relational repositories become list operations, the
ephemeral key-value store (EKVS) becomes an association list of
`(key, value, setTime)` entries, asynchronous handlers become pure
state-passing functions, and JavaScript truthiness / numeric coercion are
made explicit (`jsTruthy`, `jsParseInt`).  Wall-clock time is an explicit
`Nat` parameter `now`, in seconds.
-/

namespace NodeRestApi

/-! ## Data model (src/db/models) -/

/-- Row of the `masteruser` table (`masteruser.model.ts`).  Only the columns
read by the embedded handlers are kept. -/
structure MasterUser where
  masteruserPK : Nat
  masteruserID : String
  username : String
  email : String
  phoneNumber : String
  password : String
  totpSecret : String
  confirmationCode : Option String
  forgotPasswordCode : Option String
  isActive : Bool
  deriving Repr, DecidableEq

/-- Row of the `profile` table (`profile.model.ts`), columns read by the
embedded handlers. -/
structure Profile where
  profilePK : Nat
  profileID : String
  username : String
  email : String
  password : String
  isActive : Bool
  deriving Repr, DecidableEq

/-- Row of the `masteruser-profile` join table (`masteruser-profile.model.ts`):
the Ownership Edge between a MasterUser and a Profile. -/
structure MasterUserToProfile where
  masteruserPK : Nat
  profilePK : Nat
  order : Nat
  deriving Repr, DecidableEq

/-- Row of the `session` table (`session.model.ts`).  `masteruserPK` and
`profilePK` are nullable columns. -/
structure Session where
  jwtId : String
  lastActive : String
  sessionInfoIp : String
  sessionInfoDevice : String
  signedIn : String
  masteruserPK : Option Nat
  profilePK : Option Nat
  deriving Repr, DecidableEq

/-- The relational store: one list per table reached by the embedded
handlers. -/
structure DB where
  masterusers : List MasterUser
  profiles : List Profile
  sessions : List Session
  masterUserToProfile : List MasterUserToProfile
  deriving Repr, DecidableEq

/-! ## Repository primitives (TypeORM `findOneBy` / `delete` / `save` /
`update` over the lists) -/

/-- Source `db.repositories.masteruser.findOneBy({ masteruserID })`. -/
def findMasterUserByID (db : DB) (id : String) : Option MasterUser :=
  db.masterusers.find? (fun u => u.masteruserID == id)

/-- Source `db.repositories.profile.findOneBy({ profileID })`. -/
def findProfileByID (db : DB) (id : String) : Option Profile :=
  db.profiles.find? (fun p => p.profileID == id)

/-- Source `db.repositories.session.findOneBy({ jwtId })`. -/
def findSessionByJwtId (db : DB) (jti : String) : Option Session :=
  db.sessions.find? (fun s => s.jwtId == jti)

/-- Source `db.repositories.masterUserToProfile.findOne({ where: { masteruserPK,
profilePK } })`. -/
def findEdge (db : DB) (mPK pPK : Nat) : Option MasterUserToProfile :=
  db.masterUserToProfile.find?
    (fun e => e.masteruserPK == mPK && e.profilePK == pPK)

/-- Source `db.repositories.session.delete({ masteruserPK })`: removes every session
row whose `masteruserPK` equals the given key. -/
def deleteSessionsByMasterPK (db : DB) (pk : Nat) : DB :=
  { db with sessions := db.sessions.filter (fun s => s.masteruserPK != some pk) }

/-- Source `db.repositories.session.update({ jwtId }, { lastActive,
sessionInfoDevice, sessionInfoIp })`. -/
def updateSessionByJwtId (db : DB) (jti lastActive device ip : String) : DB :=
  { db with
    sessions := db.sessions.map (fun s =>
      if s.jwtId == jti then
        { s with lastActive := lastActive, sessionInfoDevice := device,
                 sessionInfoIp := ip }
      else s) }

/-! ## JavaScript semantics made explicit -/

/-- JavaScript truthiness of a string: falsy exactly on the empty string. -/
def jsTruthy (s : String) : Bool := s != ""

/-- JavaScript truthiness of a nullable string (`null` and `""` are falsy). -/
def jsTruthyOpt : Option String → Bool
  | none => false
  | some s => jsTruthy s

/-- Source `Number.parseInt(s, 10)` restricted to the shapes that occur here:
parses the longest leading run of decimal digits, `none` when there is no
leading digit (JavaScript `NaN`). -/
def jsParseInt (s : String) : Option Nat :=
  let ds := s.toList.takeWhile (fun c => c.isDigit)
  if ds.isEmpty then none
  else some (ds.foldl (fun n c => 10 * n + (c.toNat - 48)) 0)

/-! ## Ephemeral key-value store (EKVS)

The low-level helper `src/core/cache/helper.ts` (`getCacheValue` /
`setCacheValue`) is not under `src/`; only its callers
(`CacheRepositoryHandler`) and the backing `cache` table (key, value,
`updatedAt`) are.  Modelled from the spec: §6 "EKVS collaborator: exposes
`get(key) -> value|nil`, `set(key, value, ttl)`, and must guarantee that
`set` resets the TTL window from the call time" and §3 "every entry is
self-expiring; absence of a key is semantically never happened / reset".
Matching the observed call shapes, `set` records the write time and `get`
takes the per-key TTL: a value is visible while `now < setTime + ttl`. -/
structure EKVS where
  entries : List (String × String × Nat)
  deriving Repr, DecidableEq

/-- Modelled from the spec: EKVS write; stores the value under the key with
the write time `now`, replacing any previous entry (the TTL window restarts
from the call time). -/
def setCacheValue (st : EKVS) (now : Nat) (key value : String) : EKVS :=
  ⟨(key, value, now) :: st.entries.filter (fun e => e.1 != key)⟩

/-- Modelled from the spec: EKVS read; returns the stored value while it is
within `ttlSeconds` of its write time, `none` (never happened / expired)
otherwise. -/
def getCacheValue (st : EKVS) (now : Nat) (key : String) (ttlSeconds : Nat) :
    Option String :=
  match st.entries.find? (fun e => e.1 == key) with
  | some e => if now < e.2.2 + ttlSeconds then some e.2.1 else none
  | none => none

/-! ## CacheRepository (`src/core/cache/repository.ts`) -/

/-- Source `blacklistOTP`: blacklists an OTP for a user (read back with TTL 120s). -/
def CacheRepository.blacklistOTP (st : EKVS) (now : Nat) (uid otp : String) :
    EKVS :=
  setCacheValue st now ("blacklisted-otp:" ++ uid ++ ":" ++ otp) "1"

/-- Source `getBlacklistedOTP`: the blacklist entry for this user and OTP, TTL 120s. -/
def CacheRepository.getBlacklistedOTP (st : EKVS) (now : Nat)
    (uid otp : String) : Option String :=
  getCacheValue st now ("blacklisted-otp:" ++ uid ++ ":" ++ otp) 120

/-- Source `getHasAskedOTP`: the OTP-request throttle key, TTL 30s. -/
def CacheRepository.getHasAskedOTP (st : EKVS) (now : Nat) (uid : String) :
    Option String :=
  getCacheValue st now ("asked-otp:" ++ uid) 30

/-- Source `setHasAskedOTP`: sets the OTP-request throttle key. -/
def CacheRepository.setHasAskedOTP (st : EKVS) (now : Nat) (uid : String) :
    EKVS :=
  setCacheValue st now ("asked-otp:" ++ uid) "1"

/-- Source `getOTPAttempts`: the wrong-attempt counter, TTL 86400s. -/
def CacheRepository.getOTPAttempts (st : EKVS) (now : Nat) (uid : String) :
    Option String :=
  getCacheValue st now ("otp-attempts:" ++ uid) 86400

/-- Source `setOTPAttempts`: read-then-increment of the wrong-attempt counter.  The
source computes `+currentAttempts + 1`; on the decimal strings this key ever
holds that numeric coercion coincides with `jsParseInt`. -/
def CacheRepository.setOTPAttempts (st : EKVS) (now : Nat) (uid : String) :
    EKVS :=
  match getCacheValue st now ("otp-attempts:" ++ uid) 86400 with
  | none => setCacheValue st now ("otp-attempts:" ++ uid) "1"
  | some v =>
      setCacheValue st now ("otp-attempts:" ++ uid)
        (toString ((jsParseInt v).getD 0 + 1))

/-- Source `getSecurityAlertEmailLock`: the security-alert-sent lock, TTL 900s. -/
def CacheRepository.getSecurityAlertEmailLock (st : EKVS) (now : Nat)
    (uid : String) : Option String :=
  getCacheValue st now ("security-alert-email-lock:" ++ uid) 900

/-- Source `setSecurityAlertEmailLock`: sets the security-alert-sent lock. -/
def CacheRepository.setSecurityAlertEmailLock (st : EKVS) (now : Nat)
    (uid : String) : EKVS :=
  setCacheValue st now ("security-alert-email-lock:" ++ uid) "1"

/-- Source `setOTPSession`: records the step-up session `otp-sess:jti -> user`
(read back with TTL 900s). -/
def CacheRepository.setOTPSession (st : EKVS) (now : Nat) (jti value : String) :
    EKVS :=
  setCacheValue st now ("otp-sess:" ++ jti) value

/-- Source `getOTPSession`: the step-up session for a jti, TTL 900s. -/
def CacheRepository.getOTPSession (st : EKVS) (now : Nat) (jti : String) :
    Option String :=
  getCacheValue st now ("otp-sess:" ++ jti) 900

/-! ## Failures and tokens -/

/-- Source `AppError` (`src/util/app-error.ts`): the structured failure every
handler surfaces through `next(...)`. -/
structure AppErr where
  message : String
  statusCode : Nat
  deriving Repr, DecidableEq

/-- Decoded JWT payload as consumed by the middlewares.  `util/jwt.ts`
(`signJWS` / `verifyToken`) is not under `src/`.  Modelled from the spec:
§4.1 Token Service embeds a subject id and a unique token id (jti) into the
signed token; a token whose signature or expiry check fails never reaches
the session-validation logic.  A missing claim is the empty string
(JavaScript falsy). -/
structure JWTPayload where
  jti : String
  sub : String
  deriving Repr, DecidableEq

/-- Modelled from the spec: the token issued by `signJWS(jti, sub,
expMinutes)` of the absent `util/jwt.ts`, per §4.1
`issue(subject, ttlMinutes) -> token`; we record the signed claims. -/
structure IssuedJWS where
  jti : String
  sub : String
  expMinutes : Nat
  deriving Repr, DecidableEq

/-! ## Session-validation middlewares -/

/-- Data placed in `res.locals.masterUserSession`. -/
structure MasterUserSessionData where
  masteruserID : String
  lastActive : String
  signedIn : String
  jwtId : String
  deriving Repr, DecidableEq

/-- Source `hasMasterUserSession` (`src/core/middleware/has-masteruser-session.ts`).
The `token` argument is the outcome of `extractJWTFromHeader` +
`verifyToken`: `none` models an absent header; a present but
invalid/expired token throws before this logic and never validates, so it
is outside this function.  Returns the middleware outcome together with the
updated relational store (the session-refresh write). -/
def hasMasterUserSession (db : DB) (token : Option JWTPayload) (now : Nat)
    (device ip : String) : Except AppErr MasterUserSessionData × DB :=
  match token with
  | none =>
      (.error ⟨"You are not logged in yet! Please log in first!", 401⟩, db)
  | some payload =>
      if !(jsTruthy payload.jti) then
        (.error ⟨"The JTI of the token is invalid or not recognized. Please verify your session again.", 401⟩, db)
      else
        match findSessionByJwtId db payload.jti with
        | none =>
            (.error ⟨"The JTI of the token is invalid or not recognized. Please verify your session again.", 401⟩, db)
        | some session =>
            match findMasterUserByID db payload.sub with
            | none =>
                (.error ⟨"User belonging to this session does not exist.", 400⟩, db)
            | some masteruser =>
                if !masteruser.isActive then
                  (.error ⟨"User is not active. Please contact the admin.", 403⟩, db)
                else
                  let lastActive := toString now
                  let db2 := updateSessionByJwtId db payload.jti lastActive
                    device ip
                  (.ok ⟨masteruser.masteruserID, lastActive,
                        session.signedIn, payload.jti⟩, db2)

/-- Data placed in `res.locals.profileSession`. -/
structure ProfileSessionData where
  masteruserID : String
  profileID : String
  lastActive : String
  signedIn : String
  jwtId : String
  deriving Repr, DecidableEq

/-- Source `hasProfileSession` (`src/core/middleware/has-profile-session.ts`),
run after `hasMasterUserSession`; `masteruserID` comes from the established
MasterUser session. -/
def hasProfileSession (db : DB) (masteruserID : String)
    (token : Option JWTPayload) (now : Nat) (device ip : String) :
    Except AppErr ProfileSessionData × DB :=
  match token with
  | none =>
      (.error ⟨"You are not logged in yet! Please log in first!", 401⟩, db)
  | some payload =>
      if !(jsTruthy payload.jti) then
        (.error ⟨"The JTI of the token is invalid or not recognized. Please verify your session again.", 401⟩, db)
      else
        match findSessionByJwtId db payload.jti with
        | none =>
            (.error ⟨"The JTI of the token is invalid or not recognized. Please verify your session again.", 401⟩, db)
        | some session =>
            match findProfileByID db payload.sub with
            | none =>
                (.error ⟨"User belonging to this session does not exist.", 400⟩, db)
            | some profile =>
                if !profile.isActive then
                  (.error ⟨"User is not active. Please contact the admin.", 403⟩, db)
                else
                  let lastActive := toString now
                  let db2 := updateSessionByJwtId db payload.jti lastActive
                    device ip
                  (.ok ⟨masteruserID, profile.profileID, lastActive,
                        session.signedIn, payload.jti⟩, db2)

/-! ## Delegated Access Authority (`src/services/masteruser.ts`) -/

/-- The three internally distinguishable `findOneByOrFail` /
`findOneOrFail` failures inside `hasAccessToProfile`. -/
inductive AccessErr
  | masterUserNotFound
  | profileNotFound
  | relationNotFound
  deriving Repr, DecidableEq

/-- Source `MasterUserService.hasAccessToProfile`: looks up both principals by
external id, then the Ownership Edge by internal keys; each absent lookup
throws (here: a distinct `AccessErr`). -/
def MasterUserService.hasAccessToProfile (db : DB)
    (masteruserID profileID : String) : Except AccessErr MasterUserToProfile :=
  match findMasterUserByID db masteruserID with
  | none => .error .masterUserNotFound
  | some mu =>
      match findProfileByID db profileID with
      | none => .error .profileNotFound
      | some pr =>
          match findEdge db mu.masteruserPK pr.profilePK with
          | none => .error .relationNotFound
          | some e => .ok e

/-- Source `MasterUserService.addProfileToMasterUser`: if the access check throws
(for any reason) the edge is created inside a transaction with `order: 1`;
otherwise the call is a no-op. -/
def MasterUserService.addProfileToMasterUser (db : DB)
    (masteruser : MasterUser) (profile : Profile) : DB :=
  match MasterUserService.hasAccessToProfile db masteruser.masteruserID
      profile.profileID with
  | .ok _ => db
  | .error _ =>
      { db with
        masterUserToProfile := db.masterUserToProfile ++
          [⟨masteruser.masteruserPK, profile.profilePK, 1⟩] }

/-- The `hasAccessToProfile` middleware
(`src/util/has-access-to-profile.ts`): catches any service failure and
collapses it to one `AppError`; `none` means the gate lets the request
through. -/
def Middleware.hasAccessToProfile (db : DB) (masteruserID profileID : String) :
    Option AppErr :=
  match MasterUserService.hasAccessToProfile db masteruserID profileID with
  | .ok _ => none
  | .error _ => some ⟨"Masteruser has no access to Profile", 404⟩

/-! ## OTP step-up (`src/v1/auth-master/controller.ts`) -/

instance {α β : Type} [DecidableEq α] [DecidableEq β] :
    DecidableEq (Except α β) := fun x y =>
  match x, y with
  | .ok a, .ok b =>
      if h : a = b then isTrue (by rw [h])
      else isFalse (by intro he; cases he; exact h rfl)
  | .error a, .error b =>
      if h : a = b then isTrue (by rw [h])
      else isFalse (by intro he; cases he; exact h rfl)
  | .ok _, .error _ => isFalse (by intro h; cases h)
  | .error _, .ok _ => isFalse (by intro h; cases h)

/-- The lockout test of `verifyOTP`:
`attempts && Number.parseInt(attempts, 10) === 3`. -/
def lockoutCond : Option String → Bool
  | none => false
  | some v => jsTruthy v && jsParseInt v == some 3

/-- Result of `verifyOTP`: outcome (`.ok` carries the jti of the issued
15-minute step-up token), the EKVS after the call, and whether the
security-alert notification email was sent during the call. -/
structure VerifyOTPResult where
  outcome : Except AppErr IssuedJWS
  cache : EKVS
  alertEmailSent : Bool
  deriving Repr, DecidableEq

/-- Source `AuthController.verifyOTP`.  `totpValid code secret` stands for
`validateDefaultTOTP` (`core/rfc6238.ts`, the external TOTP Engine of
§4.2); `auth` is the parsed Basic authorization (`none` = missing header);
`newJti` is the fresh `nanoid()`. -/
def verifyOTP (db : DB) (cache : EKVS) (now : Nat)
    (totpValid : String → String → Bool)
    (auth : Option (String × String)) (newJti : String) : VerifyOTPResult :=
  match auth with
  | none => ⟨.error ⟨"Missing authorization in request!", 401⟩, cache, false⟩
  | some (username, password) =>
      if !(jsTruthy username) || !(jsTruthy password) then
        ⟨.error ⟨"Invalid authentication scheme!", 401⟩, cache, false⟩
      else
        match findMasterUserByID db username with
        | none =>
            ⟨.error ⟨"MasterUser with that ID is not found.", 404⟩, cache,
             false⟩
        | some masteruser =>
            let uid := masteruser.masteruserID
            if lockoutCond (CacheRepository.getOTPAttempts cache now uid) then
              if !(jsTruthyOpt
                  (CacheRepository.getSecurityAlertEmailLock cache now uid))
              then
                ⟨.error ⟨"You have exceeded the number of times allowed for a secured session. Please try again in the next day.", 429⟩,
                 CacheRepository.setSecurityAlertEmailLock cache now uid, true⟩
              else
                ⟨.error ⟨"You have exceeded the number of times allowed for a secured session. Please try again in the next day.", 429⟩,
                 cache, false⟩
            else
              if jsTruthyOpt
                  (CacheRepository.getBlacklistedOTP cache now uid password)
              then
                ⟨.error ⟨"This OTP has expired. Please request it again in 30 seconds!", 410⟩,
                 CacheRepository.setOTPAttempts cache now uid, false⟩
              else
                if !(totpValid password masteruser.totpSecret) then
                  ⟨.error ⟨"Invalid authentication, wrong OTP code.", 401⟩,
                   CacheRepository.setOTPAttempts cache now uid, false⟩
                else
                  let cache2 := CacheRepository.blacklistOTP cache now uid
                    password
                  let jws := IssuedJWS.mk newJti uid 900
                  let cache3 := CacheRepository.setOTPSession cache2 now
                    newJti uid
                  ⟨.ok jws, cache3, false⟩

/-- The delivery `media` query value, guaranteed by the validation layer to
be one of these three. -/
inductive OTPMedia
  | email
  | sms
  | authenticator
  deriving Repr, DecidableEq

/-- Result of `sendOTP`: outcome, the EKVS after the call, and whether the
OTP was delivered over the email channel. -/
structure SendOTPResult where
  outcome : Except AppErr Unit
  cache : EKVS
  sentOTPEmail : Bool
  deriving Repr, DecidableEq

/-- Source `AuthController.sendOTP`: `masteruserID` comes from the established
MasterUser session; the TOTP itself is generated by the external engine and
is not part of the observable state here. -/
def sendOTP (db : DB) (cache : EKVS) (now : Nat) (masteruserID : String)
    (media : OTPMedia) : SendOTPResult :=
  match findMasterUserByID db masteruserID with
  | none =>
      ⟨.error ⟨"MasterUser with this ID does not exist!", 404⟩, cache, false⟩
  | some _ =>
      if jsTruthyOpt (CacheRepository.getHasAskedOTP cache now masteruserID)
      then
        ⟨.error ⟨"You have recently asked for an OTP. Please wait 30 seconds before we process your request again.", 429⟩,
         cache, false⟩
      else
        let sentOTPEmail := media == OTPMedia.email
        if media == OTPMedia.sms then
          ⟨.error ⟨"Media is not yet implemented. Please use another media.", 501⟩,
           cache, sentOTPEmail⟩
        else
          ⟨.ok (), CacheRepository.setHasAskedOTP cache now masteruserID,
           sentOTPEmail⟩

/-! ## Logins -/

/-- Source `getMasterUserByCredentials(username, username, username)`: the same
string is matched against username, email and phone number (OR). -/
def getMasterUserByCredentials (db : DB) (credential : String) :
    Option MasterUser :=
  db.masterusers.find? (fun u =>
    u.username == credential || u.email == credential ||
    u.phoneNumber == credential)

/-- Source `AuthController.login` (MasterUser primary login).  `verifyPwd hash pwd`
stands for the external Argon2 `verifyPassword`; `jwtId` is the fresh
`randomUUID()`.  On success the issued token and the store with the new
session row are returned. -/
def AuthController.login (db : DB) (verifyPwd : String → String → Bool)
    (username password jwtId : String) (now : Nat) (device ip : String) :
    Except AppErr IssuedJWS × DB :=
  match getMasterUserByCredentials db username with
  | none => (.error ⟨"Invalid username and/or password!", 401⟩, db)
  | some masteruser =>
      if !(verifyPwd masteruser.password password) then
        (.error ⟨"Invalid username and/or password!", 401⟩, db)
      else if !masteruser.isActive then
        (.error ⟨"MasterUser is not active. Please contact the admin.", 403⟩,
         db)
      else
        let jws := IssuedJWS.mk jwtId masteruser.masteruserID 525600
        let db2 := { db with
          sessions := db.sessions ++
            [⟨jwtId, toString now, ip, device, toString now,
              some masteruser.masteruserPK, none⟩] }
        (.ok jws, db2)

/-- Source `ProfileAuthController.login` (Profile login, `v1/auth/controller.ts`),
run under a live MasterUser session.  The `save` call passes `masteruserID`
and `profileID`, which are not columns of the `session` entity, so the
persisted row carries null `masteruserPK`/`profilePK`. -/
def ProfileAuthController.login (db : DB)
    (verifyPwd : String → String → Bool) (masteruserID : String)
    (username password jwtId : String) (now : Nat) (device ip : String) :
    Except AppErr IssuedJWS × DB :=
  match db.profiles.find? (fun p => p.username == username) with
  | none => (.error ⟨"Invalid Credentials", 401⟩, db)
  | some profile =>
      if !(verifyPwd profile.password password) then
        (.error ⟨"Invalid Credentials", 401⟩, db)
      else
        match findMasterUserByID db masteruserID with
        | none => (.error ⟨"Master User not found", 404⟩, db)
        | some masteruser =>
            let db1 := MasterUserService.addProfileToMasterUser db masteruser
              profile
            if !profile.isActive then
              (.error ⟨"Profile is not active. Please contact the admin.", 403⟩,
               db1)
            else
              let jws := IssuedJWS.mk jwtId profile.profileID 480
              let db2 := { db1 with
                sessions := db1.sessions ++
                  [⟨jwtId, toString now, ip, device, toString now, none,
                    none⟩] }
              (.ok jws, db2)

/-! ## Password change / reset (`src/v1/auth-master/controller.ts`) -/

/-- Source `services.masteruser.updateMasterUser({ masteruserID }, { password })`:
hashes and stores the new password on every row matching the id. -/
def updateMasterUserPassword (db : DB) (hashPwd : String → String)
    (masteruserID newPassword : String) : DB :=
  { db with
    masterusers := db.masterusers.map (fun u =>
      if u.masteruserID == masteruserID then
        { u with password := hashPwd newPassword }
      else u) }

/-- Source `updateMasterUser({ masteruserID }, { password, forgotPasswordCode:
undefined })` as called by `resetPassword`. -/
def updateMasterUserPasswordAndClearCode (db : DB) (hashPwd : String → String)
    (masteruserID newPassword : String) : DB :=
  { db with
    masterusers := db.masterusers.map (fun u =>
      if u.masteruserID == masteruserID then
        { u with password := hashPwd newPassword, forgotPasswordCode := none }
      else u) }

/-- Source `AuthController.updatePassword`: verifies the current password
(`verifyPwd`), time-safe-compares the two new passwords (functionally
string equality), updates the password, then deletes every session row of
the principal. -/
def updatePassword (db : DB) (verifyPwd : String → String → Bool)
    (hashPwd : String → String)
    (masteruserID currentPassword newPassword confirmPassword : String) :
    Except AppErr Unit × DB :=
  if !(jsTruthy masteruserID) then
    (.error ⟨"No session detected. Please log in again.", 401⟩, db)
  else
    match findMasterUserByID db masteruserID with
    | none => (.error ⟨"There is no masteruser with that ID.", 404⟩, db)
    | some masteruser =>
        if !(verifyPwd masteruser.password currentPassword) then
          (.error ⟨"Your previous password is wrong!", 401⟩, db)
        else if !(newPassword == confirmPassword) then
          (.error ⟨"Your new passwords do not match.", 401⟩, db)
        else
          let db1 := updateMasterUserPassword db hashPwd masteruserID
            newPassword
          let db2 := deleteSessionsByMasterPK db1 masteruser.masteruserPK
          (.ok (), db2)

/-- Source `db.repositories.masteruser.findOneBy({ forgotPasswordCode: token })`. -/
def findMasterUserByForgotCode (db : DB) (token : String) :
    Option MasterUser :=
  db.masterusers.find? (fun u => u.forgotPasswordCode == some token)

/-- Source `AuthController.resetPassword`: matches the reset token, requires an
active principal, updates the password and clears the code, then deletes
every session row of the principal. -/
def resetPassword (db : DB) (hashPwd : String → String)
    (token newPassword confirmPassword : String) : Except AppErr Unit × DB :=
  if !(newPassword == confirmPassword) then
    (.error ⟨"Your passwords do not match!", 400⟩, db)
  else
    match findMasterUserByForgotCode db token with
    | none =>
        (.error ⟨"There is no masteruser associated with the token.", 404⟩, db)
    | some masteruser =>
        if !masteruser.isActive then
          (.error ⟨"This masteruser is not active. Please contact the administrator for reactivation.", 403⟩,
           db)
        else
          let db1 := updateMasterUserPasswordAndClearCode db hashPwd
            masteruser.masteruserID newPassword
          let db2 := deleteSessionsByMasterPK db1 masteruser.masteruserPK
          (.ok (), db2)

/-! ## Helper lemmas about the EKVS -/

theorem find?_filter_eq {α} (p q : α → Bool) (l : List α)
    (h : ∀ x, p x = true → q x = true) : (l.filter q).find? p = l.find? p := by
  induction l with
  | nil => rfl
  | cons a l ih =>
    by_cases hq : q a = true
    · rw [List.filter_cons_of_pos hq]
      rw [List.find?_cons, List.find?_cons]
      cases hp : p a
      · exact ih
      · rfl
    · have hp : p a = false := by
        cases hpa : p a
        · rfl
        · exact absurd (h a hpa) hq
      rw [List.filter_cons_of_neg (by simp [hq])]
      rw [List.find?_cons, hp, ih]

/-- Reading back the key just written: visible exactly while inside the TTL
window counted from the write time. -/
theorem getCacheValue_set_self (st : EKVS) (t now : Nat) (k v : String)
    (ttl : Nat) :
    getCacheValue (setCacheValue st t k v) now k ttl =
      if now < t + ttl then some v else none := by
  simp [getCacheValue, setCacheValue, List.find?_cons]

/-- Writing one key does not affect reads of a different key. -/
theorem getCacheValue_set_ne (st : EKVS) (t now : Nat) (k k2 v : String)
    (ttl : Nat) (h : k2 ≠ k) :
    getCacheValue (setCacheValue st t k v) now k2 ttl =
      getCacheValue st now k2 ttl := by
  unfold getCacheValue setCacheValue
  simp only [List.find?_cons]
  have hk : (k == k2) = false := by simp [bne, Ne.symm h]
  simp only [hk]
  rw [find?_filter_eq]
  intro x hx
  simp only [beq_iff_eq] at hx
  simp [bne, hx, h]

/-- Two strings differing at some character position are distinct. -/
theorem ne_of_keyCharAt {s t : String} {n : Nat} {a b : Char}
    (hs : (s.data.drop n).head? = some a)
    (ht : (t.data.drop n).head? = some b) (hab : a ≠ b) : s ≠ t := by
  intro h
  subst h
  rw [hs] at ht
  exact hab (Option.some.inj ht)

/-- The EKVS key namespaces used by `verifyOTP` are pairwise disjoint:
blacklist keys are never the security-alert lock key. -/
theorem blacklistKey_ne_alertKey (u o w : String) :
    ("blacklisted-otp:" ++ u ++ ":" ++ o) ≠
      ("security-alert-email-lock:" ++ w) :=
  ne_of_keyCharAt (n := 0) rfl rfl (by decide)

/-- Attempt-counter keys are never the security-alert lock key. -/
theorem attemptsKey_ne_alertKey (u w : String) :
    ("otp-attempts:" ++ u) ≠ ("security-alert-email-lock:" ++ w) :=
  ne_of_keyCharAt (n := 0) rfl rfl (by decide)

/-- Attempt-counter keys are never a step-up session key. -/
theorem attemptsKey_ne_otpSessKey (u j : String) :
    ("otp-attempts:" ++ u) ≠ ("otp-sess:" ++ j) :=
  ne_of_keyCharAt (n := 4) rfl rfl (by decide)

/-- Attempt-counter keys are never a blacklist key. -/
theorem attemptsKey_ne_blacklistKey (u v o : String) :
    ("otp-attempts:" ++ u) ≠ ("blacklisted-otp:" ++ v ++ ":" ++ o) :=
  ne_of_keyCharAt (n := 0) rfl rfl (by decide)

/-- Blacklist keys are never a step-up session key. -/
theorem blacklistKey_ne_otpSessKey (u o j : String) :
    ("blacklisted-otp:" ++ u ++ ":" ++ o) ≠ ("otp-sess:" ++ j) :=
  ne_of_keyCharAt (n := 0) rfl rfl (by decide)

/-! ## Claim C1 -/

/-- An inactive MasterUser whose session row is still live. -/
def C1xMasterUser : MasterUser :=
  ⟨1, "mu-1", "alice", "alice@mail", "555", "hash", "secret", none, none,
   false⟩

/-- A live session row for `C1xMasterUser`. -/
def C1xSession : Session := ⟨"jti-1", "0", "ip", "dev", "0", some 1, none⟩

/-- Store holding the inactive principal and its live session row. -/
def C1xDB : DB := ⟨[C1xMasterUser], [], [C1xSession], []⟩

/-- C1, counterexample: with a correctly signed, unexpired token whose jti
has a matching Session row, validation nevertheless fails, because the
principal is inactive — so "session validation succeeds if and only if a
Session row whose jwtId equals the token's jti exists" is false as stated. -/
theorem claimC1_counterexample :
    (∃ s ∈ C1xDB.sessions, s.jwtId = "jti-1") ∧
    (hasMasterUserSession C1xDB (some ⟨"jti-1", "mu-1"⟩) 5 "dev"
      "ip").1.isOk = false := by
  decide

/-- A session-row lookup by jti succeeds exactly when a row with that jti
exists. -/
theorem sessionExists_iff (db : DB) (j : String) :
    (findSessionByJwtId db j).isSome = true ↔ ∃ s ∈ db.sessions, s.jwtId = j := by
  unfold findSessionByJwtId
  rw [List.find?_isSome]
  constructor
  · rintro ⟨x, hx, hp⟩
    exact ⟨x, hx, by simpa using hp⟩
  · rintro ⟨x, hx, hp⟩
    exact ⟨x, hx, by simpa using hp⟩

/-- C1 (amended): for a request carrying a syntactically valid, correctly
signed, unexpired bearer token (with a nonempty jti), session validation
succeeds iff a Session row whose jwtId equals the token's jti exists AND
the principal named by the token's sub exists and is active; in particular
with no matching Session row the request is rejected regardless of the
token's validity.  Both the MasterUser and the Profile middlewares satisfy
this. -/
theorem claimC1_amended (db : DB) (payload : JWTPayload) (now : Nat)
    (device ip mid : String) (hjti : payload.jti ≠ "") :
    ((hasMasterUserSession db (some payload) now device ip).1.isOk = true ↔
      ((∃ s ∈ db.sessions, s.jwtId = payload.jti) ∧
        ∃ u, findMasterUserByID db payload.sub = some u ∧ u.isActive = true))
    ∧
    ((hasProfileSession db mid (some payload) now device ip).1.isOk = true ↔
      ((∃ s ∈ db.sessions, s.jwtId = payload.jti) ∧
        ∃ p, findProfileByID db payload.sub = some p ∧ p.isActive = true)) := by
  have hsess := sessionExists_iff db payload.jti
  constructor
  · rcases hfind : findSessionByJwtId db payload.jti with _ | s
    · have hnone : ¬ ∃ s ∈ db.sessions, s.jwtId = payload.jti := by
        rw [← hsess, hfind]
        simp
      simp [hasMasterUserSession, Except.isOk, Except.toBool, jsTruthy, hjti, hfind, hnone]
    · have hyes : ∃ s ∈ db.sessions, s.jwtId = payload.jti := by
        rw [← hsess, hfind]
        rfl
      rcases hu : findMasterUserByID db payload.sub with _ | u
      · simp [hasMasterUserSession, Except.isOk, Except.toBool, jsTruthy, hjti, hfind, hu]
      · cases hact : u.isActive
        · simp [hasMasterUserSession, Except.isOk, Except.toBool, jsTruthy, hjti, hfind, hu, hact]
        · simp [hasMasterUserSession, Except.isOk, Except.toBool, jsTruthy, hjti, hfind, hu, hact, hyes]
  · rcases hfind : findSessionByJwtId db payload.jti with _ | s
    · have hnone : ¬ ∃ s ∈ db.sessions, s.jwtId = payload.jti := by
        rw [← hsess, hfind]
        simp
      simp [hasProfileSession, Except.isOk, Except.toBool, jsTruthy, hjti, hfind, hnone]
    · have hyes : ∃ s ∈ db.sessions, s.jwtId = payload.jti := by
        rw [← hsess, hfind]
        rfl
      rcases hp : findProfileByID db payload.sub with _ | p
      · simp [hasProfileSession, Except.isOk, Except.toBool, jsTruthy, hjti, hfind, hp]
      · cases hact : p.isActive
        · simp [hasProfileSession, Except.isOk, Except.toBool, jsTruthy, hjti, hfind, hp, hact]
        · simp [hasProfileSession, Except.isOk, Except.toBool, jsTruthy, hjti, hfind, hp, hact, hyes]

/-- An active MasterUser and Profile with live session rows. -/
def C1wDB : DB :=
  ⟨[⟨1, "mu-1", "alice", "alice@mail", "555", "hash", "secret", none, none,
     true⟩],
   [⟨2, "pr-1", "paul", "paul@mail", "hash2", true⟩],
   [⟨"jti-1", "0", "ip", "dev", "7", some 1, none⟩,
    ⟨"jti-2", "0", "ip", "dev", "8", none, none⟩],
   []⟩

/-- C1, witness: the amended equivalence evaluated on a concrete store. -/
theorem claimC1_witness :
    ((hasMasterUserSession C1wDB (some ⟨"jti-1", "mu-1"⟩) 5 "dev"
        "ip").1.isOk = true ↔
      ((∃ s ∈ C1wDB.sessions, s.jwtId = "jti-1") ∧
        ∃ u, findMasterUserByID C1wDB "mu-1" = some u ∧ u.isActive = true))
    ∧
    ((hasProfileSession C1wDB "mu-1" (some ⟨"jti-1", "mu-1"⟩) 5 "dev"
        "ip").1.isOk = true ↔
      ((∃ s ∈ C1wDB.sessions, s.jwtId = "jti-1") ∧
        ∃ p, findProfileByID C1wDB "mu-1" = some p ∧ p.isActive = true)) :=
  claimC1_amended C1wDB ⟨"jti-1", "mu-1"⟩ 5 "dev" "ip" "mu-1" (by decide)

/-! ## Claim C2 -/

/-- C2: once the wrong-attempt counter of a principal reads exactly "3"
(inside its 86400s window), a verification request is rejected as locked
out (429) for EVERY submitted code and EVERY behaviour of the TOTP engine
(`totpValid` is universally quantified, so a correct current code changes
nothing), and neither the blacklist nor the wrong-attempt counter of the
principal is consulted or changed by the rejected request. -/
theorem claimC2 (db : DB) (cache : EKVS) (now : Nat)
    (totpValid : String → String → Bool) (username password newJti : String)
    (mu : MasterUser)
    (hu : findMasterUserByID db username = some mu)
    (hun : username ≠ "") (hpw : password ≠ "")
    (hv : CacheRepository.getOTPAttempts cache now mu.masteruserID =
      some "3") :
    (verifyOTP db cache now totpValid (some (username, password))
        newJti).outcome =
      .error ⟨"You have exceeded the number of times allowed for a secured session. Please try again in the next day.", 429⟩
    ∧ (∀ otp, CacheRepository.getBlacklistedOTP
        (verifyOTP db cache now totpValid (some (username, password))
          newJti).cache now mu.masteruserID otp =
        CacheRepository.getBlacklistedOTP cache now mu.masteruserID otp)
    ∧ CacheRepository.getOTPAttempts
        (verifyOTP db cache now totpValid (some (username, password))
          newJti).cache now mu.masteruserID =
      CacheRepository.getOTPAttempts cache now mu.masteruserID := by
  have hl : lockoutCond (CacheRepository.getOTPAttempts cache now
      mu.masteruserID) = true := by
    rw [hv]
    rfl
  cases halert : jsTruthyOpt (CacheRepository.getSecurityAlertEmailLock cache
      now mu.masteruserID)
  · refine ⟨?_, ?_, ?_⟩
    · simp [verifyOTP, hu, jsTruthy, hun, hpw, hl, halert]
    · intro otp
      simp only [verifyOTP, hu, jsTruthy, hun, hpw, hl, halert]
      simp only [bne, hun, hpw, decide_not]
      simp [hun, hpw, CacheRepository.getBlacklistedOTP,
            CacheRepository.setSecurityAlertEmailLock]
      exact getCacheValue_set_ne cache now now _ _ _ 120
        (blacklistKey_ne_alertKey mu.masteruserID otp mu.masteruserID)
    · simp only [verifyOTP, hu, jsTruthy, hun, hpw, hl, halert]
      simp [hun, hpw, CacheRepository.getOTPAttempts,
            CacheRepository.setSecurityAlertEmailLock]
      exact getCacheValue_set_ne cache now now _ _ _ 86400
        (attemptsKey_ne_alertKey mu.masteruserID mu.masteruserID)
  · refine ⟨?_, ?_, ?_⟩
    · simp [verifyOTP, hu, jsTruthy, hun, hpw, hl, halert]
    · intro otp
      simp [verifyOTP, hu, jsTruthy, hun, hpw, hl, halert]
    · simp [verifyOTP, hu, jsTruthy, hun, hpw, hl, halert]

/-- A principal for the C2 witness. -/
def C2wUser : MasterUser :=
  ⟨1, "mu-1", "alice", "alice@mail", "555", "hash", "secret", none, none,
   true⟩

/-- Store holding the C2 witness principal. -/
def C2wDB : DB := ⟨[C2wUser], [], [], []⟩

/-- EKVS with the wrong-attempt counter of `mu-1` at "3" (set at time 0). -/
def C2wCache : EKVS := ⟨[("otp-attempts:mu-1", "3", 0)]⟩

/-- C2, witness: the locked-out rejection evaluated concretely, with a TOTP
engine that would accept every code. -/
theorem claimC2_witness :
    (verifyOTP C2wDB C2wCache 10 (fun _ _ => true)
        (some ("mu-1", "123456")) "jti-9").outcome =
      .error ⟨"You have exceeded the number of times allowed for a secured session. Please try again in the next day.", 429⟩
    ∧ (∀ otp, CacheRepository.getBlacklistedOTP
        (verifyOTP C2wDB C2wCache 10 (fun _ _ => true)
          (some ("mu-1", "123456")) "jti-9").cache 10 "mu-1" otp =
        CacheRepository.getBlacklistedOTP C2wCache 10 "mu-1" otp)
    ∧ CacheRepository.getOTPAttempts
        (verifyOTP C2wDB C2wCache 10 (fun _ _ => true)
          (some ("mu-1", "123456")) "jti-9").cache 10 "mu-1" =
      CacheRepository.getOTPAttempts C2wCache 10 "mu-1" :=
  claimC2 C2wDB C2wCache 10 (fun _ _ => true) "mu-1" "123456" "jti-9" C2wUser
    (by decide) (by decide) (by decide) (by decide)

/-! ## Claim C3 -/

/-- C3: on a locked-out verification attempt (counter at "3") with the
security-alert lock not set, the alert email is sent and the lock is set in
the same call; on any later locked-out attempt while the lock key is still
present (within its 900s TTL and with the counter still at "3"), no further
alert is sent and the request is still rejected as locked out. -/
theorem claimC3 (db : DB) (cache : EKVS) (now now₂ : Nat)
    (totpValid totpValid₂ : String → String → Bool)
    (username password password₂ newJti newJti₂ : String) (mu : MasterUser)
    (hu : findMasterUserByID db username = some mu)
    (hun : username ≠ "") (hpw : password ≠ "") (hpw₂ : password₂ ≠ "")
    (hv : CacheRepository.getOTPAttempts cache now mu.masteruserID =
      some "3")
    (hv₂ : CacheRepository.getOTPAttempts cache now₂ mu.masteruserID =
      some "3")
    (hlockfree : CacheRepository.getSecurityAlertEmailLock cache now
      mu.masteruserID = none)
    (hwin : now₂ < now + 900) :
    (verifyOTP db cache now totpValid (some (username, password))
        newJti).alertEmailSent = true
    ∧ CacheRepository.getSecurityAlertEmailLock
        (verifyOTP db cache now totpValid (some (username, password))
          newJti).cache now₂ mu.masteruserID = some "1"
    ∧ (verifyOTP db
        (verifyOTP db cache now totpValid (some (username, password))
          newJti).cache now₂ totpValid₂ (some (username, password₂))
        newJti₂).alertEmailSent = false
    ∧ (verifyOTP db
        (verifyOTP db cache now totpValid (some (username, password))
          newJti).cache now₂ totpValid₂ (some (username, password₂))
        newJti₂).outcome =
      .error ⟨"You have exceeded the number of times allowed for a secured session. Please try again in the next day.", 429⟩ := by
  have hl : lockoutCond (CacheRepository.getOTPAttempts cache now
      mu.masteruserID) = true := by
    rw [hv]
    rfl
  have halert : jsTruthyOpt (CacheRepository.getSecurityAlertEmailLock cache
      now mu.masteruserID) = false := by
    rw [hlockfree]
    rfl
  have hred : (verifyOTP db cache now totpValid (some (username, password))
      newJti).cache =
      CacheRepository.setSecurityAlertEmailLock cache now mu.masteruserID := by
    simp [verifyOTP, hu, jsTruthy, hun, hpw, hl, halert]
  have hsent : (verifyOTP db cache now totpValid (some (username, password))
      newJti).alertEmailSent = true := by
    simp [verifyOTP, hu, jsTruthy, hun, hpw, hl, halert]
  have hlock2 : CacheRepository.getSecurityAlertEmailLock
      (verifyOTP db cache now totpValid (some (username, password))
        newJti).cache now₂ mu.masteruserID = some "1" := by
    rw [hred]
    unfold CacheRepository.getSecurityAlertEmailLock
      CacheRepository.setSecurityAlertEmailLock
    rw [getCacheValue_set_self]
    simp [hwin]
  have hatt2 : CacheRepository.getOTPAttempts
      (verifyOTP db cache now totpValid (some (username, password))
        newJti).cache now₂ mu.masteruserID = some "3" := by
    rw [hred]
    unfold CacheRepository.getOTPAttempts
      CacheRepository.setSecurityAlertEmailLock
    rw [getCacheValue_set_ne cache now now₂ _ _ _ 86400
      (attemptsKey_ne_alertKey mu.masteruserID mu.masteruserID)]
    exact hv₂
  have hl₂ : lockoutCond (CacheRepository.getOTPAttempts
      (verifyOTP db cache now totpValid (some (username, password))
        newJti).cache now₂ mu.masteruserID) = true := by
    rw [hatt2]
    rfl
  have halert₂ : jsTruthyOpt (CacheRepository.getSecurityAlertEmailLock
      (verifyOTP db cache now totpValid (some (username, password))
        newJti).cache now₂ mu.masteruserID) = true := by
    rw [hlock2]
    rfl
  rw [hred] at hl₂ halert₂
  refine ⟨hsent, hlock2, ?_, ?_⟩
  · rw [hred]
    simp [verifyOTP, hu, jsTruthy, hun, hpw₂, hl₂, halert₂]
  · rw [hred]
    simp [verifyOTP, hu, jsTruthy, hun, hpw₂, hl₂, halert₂]

/-- C3, witness: the single-alert behaviour evaluated concretely. -/
theorem claimC3_witness :
    (verifyOTP C2wDB C2wCache 10 (fun _ _ => false)
        (some ("mu-1", "000000")) "jti-a").alertEmailSent = true
    ∧ CacheRepository.getSecurityAlertEmailLock
        (verifyOTP C2wDB C2wCache 10 (fun _ _ => false)
          (some ("mu-1", "000000")) "jti-a").cache 20 "mu-1" = some "1"
    ∧ (verifyOTP C2wDB
        (verifyOTP C2wDB C2wCache 10 (fun _ _ => false)
          (some ("mu-1", "000000")) "jti-a").cache 20 (fun _ _ => true)
        (some ("mu-1", "111111")) "jti-b").alertEmailSent = false
    ∧ (verifyOTP C2wDB
        (verifyOTP C2wDB C2wCache 10 (fun _ _ => false)
          (some ("mu-1", "000000")) "jti-a").cache 20 (fun _ _ => true)
        (some ("mu-1", "111111")) "jti-b").outcome =
      .error ⟨"You have exceeded the number of times allowed for a secured session. Please try again in the next day.", 429⟩ :=
  claimC3 C2wDB C2wCache 10 20 (fun _ _ => false) (fun _ _ => true)
    "mu-1" "000000" "111111" "jti-a" "jti-b" C2wUser
    (by decide) (by decide) (by decide) (by decide) (by decide) (by decide)
    (by decide) (by decide)

/-! ## Claim C4 -/

/-- C4: a code accepted once by verification is written to the blacklist at
acceptance time, and a later submission of the same code by the same
principal within the 120s blacklist TTL (on a not-locked-out counter, the
case C2 states takes precedence) is rejected as replayed (410) for EVERY
behaviour of the TOTP engine — in particular even while the code is still
time-window-valid, and without the engine being consulted. -/
theorem claimC4 (db : DB) (cache : EKVS) (now now₂ : Nat)
    (totpValid totpValid₂ : String → String → Bool)
    (username password newJti newJti₂ : String) (mu : MasterUser)
    (hu : findMasterUserByID db username = some mu)
    (hun : username ≠ "") (hpw : password ≠ "")
    (hnl : lockoutCond (CacheRepository.getOTPAttempts cache now
      mu.masteruserID) = false)
    (hnb : jsTruthyOpt (CacheRepository.getBlacklistedOTP cache now
      mu.masteruserID password) = false)
    (hok : totpValid password mu.totpSecret = true)
    (hnl₂ : lockoutCond (CacheRepository.getOTPAttempts cache now₂
      mu.masteruserID) = false)
    (hwin : now₂ < now + 120) :
    (verifyOTP db cache now totpValid (some (username, password))
        newJti).outcome = .ok ⟨newJti, mu.masteruserID, 900⟩
    ∧ CacheRepository.getBlacklistedOTP
        (verifyOTP db cache now totpValid (some (username, password))
          newJti).cache now₂ mu.masteruserID password = some "1"
    ∧ (verifyOTP db
        (verifyOTP db cache now totpValid (some (username, password))
          newJti).cache now₂ totpValid₂ (some (username, password))
        newJti₂).outcome =
      .error ⟨"This OTP has expired. Please request it again in 30 seconds!", 410⟩ := by
  have hred : (verifyOTP db cache now totpValid (some (username, password))
      newJti).cache =
      CacheRepository.setOTPSession
        (CacheRepository.blacklistOTP cache now mu.masteruserID password)
        now newJti mu.masteruserID := by
    simp [verifyOTP, hu, jsTruthy, hun, hpw, hnl, hnb, hok]
  have hout : (verifyOTP db cache now totpValid (some (username, password))
      newJti).outcome = .ok ⟨newJti, mu.masteruserID, 900⟩ := by
    simp [verifyOTP, hu, jsTruthy, hun, hpw, hnl, hnb, hok]
  have hblack : CacheRepository.getBlacklistedOTP
      (verifyOTP db cache now totpValid (some (username, password))
        newJti).cache now₂ mu.masteruserID password = some "1" := by
    rw [hred]
    unfold CacheRepository.getBlacklistedOTP CacheRepository.setOTPSession
      CacheRepository.blacklistOTP
    rw [getCacheValue_set_ne _ now now₂ _ _ _ 120
      (blacklistKey_ne_otpSessKey mu.masteruserID password newJti)]
    rw [getCacheValue_set_self]
    simp [hwin]
  have hatt₂ : CacheRepository.getOTPAttempts
      (verifyOTP db cache now totpValid (some (username, password))
        newJti).cache now₂ mu.masteruserID =
      CacheRepository.getOTPAttempts cache now₂ mu.masteruserID := by
    rw [hred]
    unfold CacheRepository.getOTPAttempts CacheRepository.setOTPSession
      CacheRepository.blacklistOTP
    rw [getCacheValue_set_ne _ now now₂ _ _ _ 86400
      (attemptsKey_ne_otpSessKey mu.masteruserID newJti)]
    rw [getCacheValue_set_ne _ now now₂ _ _ _ 86400
      (attemptsKey_ne_blacklistKey mu.masteruserID mu.masteruserID password)]
  have hnl₂x : lockoutCond (CacheRepository.getOTPAttempts
      (verifyOTP db cache now totpValid (some (username, password))
        newJti).cache now₂ mu.masteruserID) = false := by
    rw [hatt₂]
    exact hnl₂
  have hblackx : jsTruthyOpt (CacheRepository.getBlacklistedOTP
      (verifyOTP db cache now totpValid (some (username, password))
        newJti).cache now₂ mu.masteruserID password) = true := by
    rw [hblack]
    rfl
  rw [hred] at hnl₂x hblackx
  refine ⟨hout, hblack, ?_⟩
  rw [hred]
  simp [verifyOTP, hu, jsTruthy, hun, hpw, hnl₂x, hblackx]

/-- C4, witness: accept-once-then-replay evaluated concretely (the engine
still accepts the code the second time; the blacklist rejects it first). -/
theorem claimC4_witness :
    (verifyOTP C2wDB ⟨[]⟩ 10 (fun _ _ => true)
        (some ("mu-1", "123456")) "jti-a").outcome =
      .ok ⟨"jti-a", "mu-1", 900⟩
    ∧ CacheRepository.getBlacklistedOTP
        (verifyOTP C2wDB ⟨[]⟩ 10 (fun _ _ => true)
          (some ("mu-1", "123456")) "jti-a").cache 40 "mu-1" "123456" =
      some "1"
    ∧ (verifyOTP C2wDB
        (verifyOTP C2wDB ⟨[]⟩ 10 (fun _ _ => true)
          (some ("mu-1", "123456")) "jti-a").cache 40 (fun _ _ => true)
        (some ("mu-1", "123456")) "jti-b").outcome =
      .error ⟨"This OTP has expired. Please request it again in 30 seconds!", 410⟩ :=
  claimC4 C2wDB ⟨[]⟩ 10 40 (fun _ _ => true) (fun _ _ => true)
    "mu-1" "123456" "jti-a" "jti-b" C2wUser
    (by decide) (by decide) (by decide) (by decide) (by decide) (by decide)
    (by decide) (by decide)

/-! ## Claim C10 -/

/-- C10: a verification request whose submitted code is found in the
blacklist increments the wrong-attempt counter (read-then-increment:
missing counter becomes "1", value v becomes v+1) before the replay
rejection (410) is returned — exactly the counter update the wrong-code
path performs, so replayed submissions count toward the 3-attempt lockout
like wrong codes do. -/
theorem claimC10 (db : DB) (cache : EKVS) (now : Nat)
    (totpValid : String → String → Bool)
    (username password password₂ newJti newJti₂ : String) (mu : MasterUser)
    (bv : String)
    (hu : findMasterUserByID db username = some mu)
    (hun : username ≠ "") (hpw : password ≠ "") (hpw₂ : password₂ ≠ "")
    (hnl : lockoutCond (CacheRepository.getOTPAttempts cache now
      mu.masteruserID) = false)
    (hb : CacheRepository.getBlacklistedOTP cache now mu.masteruserID
      password = some bv)
    (hbv : bv ≠ "")
    (hnb₂ : jsTruthyOpt (CacheRepository.getBlacklistedOTP cache now
      mu.masteruserID password₂) = false)
    (hwrong₂ : totpValid password₂ mu.totpSecret = false) :
    (verifyOTP db cache now totpValid (some (username, password))
        newJti).outcome =
      .error ⟨"This OTP has expired. Please request it again in 30 seconds!", 410⟩
    ∧ CacheRepository.getOTPAttempts
        (verifyOTP db cache now totpValid (some (username, password))
          newJti).cache now mu.masteruserID =
      some (match CacheRepository.getOTPAttempts cache now mu.masteruserID with
            | none => "1"
            | some v => toString ((jsParseInt v).getD 0 + 1))
    ∧ CacheRepository.getOTPAttempts
        (verifyOTP db cache now totpValid (some (username, password₂))
          newJti₂).cache now mu.masteruserID =
      CacheRepository.getOTPAttempts
        (verifyOTP db cache now totpValid (some (username, password))
          newJti).cache now mu.masteruserID := by
  have hbx : jsTruthyOpt (CacheRepository.getBlacklistedOTP cache now
      mu.masteruserID password) = true := by
    rw [hb]
    simp [jsTruthyOpt, jsTruthy, hbv]
  have hset : CacheRepository.getOTPAttempts
      (CacheRepository.setOTPAttempts cache now mu.masteruserID) now
      mu.masteruserID =
      some (match CacheRepository.getOTPAttempts cache now mu.masteruserID with
            | none => "1"
            | some v => toString ((jsParseInt v).getD 0 + 1)) := by
    unfold CacheRepository.getOTPAttempts CacheRepository.setOTPAttempts
    rcases hav : getCacheValue cache now ("otp-attempts:" ++ mu.masteruserID)
        86400 with _ | v
    · rw [getCacheValue_set_self]
      simp
    · rw [getCacheValue_set_self]
      simp
  refine ⟨?_, ?_, ?_⟩
  · simp [verifyOTP, hu, jsTruthy, hun, hpw, hnl, hbx]
  · have hc : (verifyOTP db cache now totpValid (some (username, password))
        newJti).cache =
        CacheRepository.setOTPAttempts cache now mu.masteruserID := by
      simp [verifyOTP, hu, jsTruthy, hun, hpw, hnl, hbx]
    rw [hc]
    exact hset
  · have hc : (verifyOTP db cache now totpValid (some (username, password))
        newJti).cache =
        CacheRepository.setOTPAttempts cache now mu.masteruserID := by
      simp [verifyOTP, hu, jsTruthy, hun, hpw, hnl, hbx]
    have hc₂ : (verifyOTP db cache now totpValid (some (username, password₂))
        newJti₂).cache =
        CacheRepository.setOTPAttempts cache now mu.masteruserID := by
      simp [verifyOTP, hu, jsTruthy, hun, hpw₂, hnl, hnb₂, hwrong₂]
    rw [hc, hc₂]

/-- EKVS for the C10 witness: the code "123456" is already blacklisted for
`mu-1` (set at time 0), one earlier wrong attempt recorded. -/
def C10wCache : EKVS :=
  ⟨[("blacklisted-otp:mu-1:123456", "1", 0), ("otp-attempts:mu-1", "1", 0)]⟩

/-- C10, witness: the counter moves from "1" to "2" on the replayed
submission, and a plain wrong code leaves the counter at the same value. -/
theorem claimC10_witness :
    (verifyOTP C2wDB C10wCache 10 (fun c _ => c == "123456")
        (some ("mu-1", "123456")) "jti-a").outcome =
      .error ⟨"This OTP has expired. Please request it again in 30 seconds!", 410⟩
    ∧ CacheRepository.getOTPAttempts
        (verifyOTP C2wDB C10wCache 10 (fun c _ => c == "123456")
          (some ("mu-1", "123456")) "jti-a").cache 10 "mu-1" =
      some (match CacheRepository.getOTPAttempts C10wCache 10 "mu-1" with
            | none => "1"
            | some v => toString ((jsParseInt v).getD 0 + 1))
    ∧ CacheRepository.getOTPAttempts
        (verifyOTP C2wDB C10wCache 10 (fun c _ => c == "123456")
          (some ("mu-1", "999999")) "jti-b").cache 10 "mu-1" =
      CacheRepository.getOTPAttempts
        (verifyOTP C2wDB C10wCache 10 (fun c _ => c == "123456")
          (some ("mu-1", "123456")) "jti-a").cache 10 "mu-1" :=
  claimC10 C2wDB C10wCache 10 (fun c _ => c == "123456")
    "mu-1" "123456" "999999" "jti-a" "jti-b" C2wUser "1"
    (by decide) (by decide) (by decide) (by decide) (by decide) (by decide)
    (by decide) (by decide) (by decide)

/-! ## Claim C8 -/

/-- C8: while the asked-otp throttle key of a principal is live (set less
than 30s before `now`), `sendOTP` rejects with the 429 "too soon" failure,
delivers nothing, and leaves the whole EKVS unchanged (so in particular the
throttle key is not re-set and the wrong-attempt counter is untouched);
once the key has expired (time `now₂`), the request succeeds and sets the
throttle key again. -/
theorem claimC8 (db : DB) (cache : EKVS) (now now₂ : Nat)
    (masteruserID : String) (media : OTPMedia) (mu : MasterUser)
    (hu : findMasterUserByID db masteruserID = some mu)
    (ht : jsTruthyOpt (CacheRepository.getHasAskedOTP cache now
      masteruserID) = true)
    (he : jsTruthyOpt (CacheRepository.getHasAskedOTP cache now₂
      masteruserID) = false)
    (hm : media ≠ OTPMedia.sms) :
    (sendOTP db cache now masteruserID media).outcome =
      .error ⟨"You have recently asked for an OTP. Please wait 30 seconds before we process your request again.", 429⟩
    ∧ (sendOTP db cache now masteruserID media).cache = cache
    ∧ (sendOTP db cache now masteruserID media).sentOTPEmail = false
    ∧ (sendOTP db cache now₂ masteruserID media).outcome = .ok ()
    ∧ CacheRepository.getHasAskedOTP
        (sendOTP db cache now₂ masteruserID media).cache now₂ masteruserID =
      some "1" := by
  refine ⟨?_, ?_, ?_, ?_, ?_⟩
  · simp [sendOTP, hu, ht]
  · simp [sendOTP, hu, ht]
  · simp [sendOTP, hu, ht]
  · simp [sendOTP, hu, he, hm]
  · have hc : (sendOTP db cache now₂ masteruserID media).cache =
        CacheRepository.setHasAskedOTP cache now₂ masteruserID := by
      simp [sendOTP, hu, he, hm]
    rw [hc]
    unfold CacheRepository.getHasAskedOTP CacheRepository.setHasAskedOTP
    rw [getCacheValue_set_self]
    simp

/-- EKVS for the C8 witness: the throttle key of `mu-1` was set at time 0;
time 10 is inside the 30s window, time 40 is past it. -/
def C8wCache : EKVS := ⟨[("asked-otp:mu-1", "1", 0)]⟩

/-- C8, witness: throttled at time 10, accepted again at time 40. -/
theorem claimC8_witness :
    (sendOTP C2wDB C8wCache 10 "mu-1" OTPMedia.email).outcome =
      .error ⟨"You have recently asked for an OTP. Please wait 30 seconds before we process your request again.", 429⟩
    ∧ (sendOTP C2wDB C8wCache 10 "mu-1" OTPMedia.email).cache = C8wCache
    ∧ (sendOTP C2wDB C8wCache 10 "mu-1" OTPMedia.email).sentOTPEmail = false
    ∧ (sendOTP C2wDB C8wCache 40 "mu-1" OTPMedia.email).outcome = .ok ()
    ∧ CacheRepository.getHasAskedOTP
        (sendOTP C2wDB C8wCache 40 "mu-1" OTPMedia.email).cache 40 "mu-1" =
      some "1" :=
  claimC8 C2wDB C8wCache 10 40 "mu-1" OTPMedia.email C2wUser
    (by decide) (by decide) (by decide) (by decide)

/-! ## Claim C9 -/

/-- C9: every token issued by a successful MasterUser primary login carries
a TTL of 525600 minutes (one year, i.e. 52+ weeks — at least weeks-scale)
and every token issued by a successful Profile login carries a TTL of 480
minutes (8 hours — hours-scale, between one hour and one day); the
MasterUser lifetime is strictly longer.  "On the order of weeks / hours" is
formalized as: at least one week for the MasterUser TTL, and within
[1 hour, 24 hours] for the Profile TTL. -/
theorem claimC9 (db : DB) (verifyPwd : String → String → Bool)
    (username password jwtId masteruserID pusername ppassword pjwtId : String)
    (now pnow : Nat) (device ip pdevice pip : String) (jws pjws : IssuedJWS)
    (hm : (AuthController.login db verifyPwd username password jwtId now
      device ip).1 = .ok jws)
    (hp : (ProfileAuthController.login db verifyPwd masteruserID pusername
      ppassword pjwtId pnow pdevice pip).1 = .ok pjws) :
    jws.expMinutes = 525600 ∧ pjws.expMinutes = 480 ∧
    10080 ≤ jws.expMinutes ∧
    60 ≤ pjws.expMinutes ∧ pjws.expMinutes ≤ 1440 ∧
    pjws.expMinutes < jws.expMinutes := by
  have h1 : jws.expMinutes = 525600 := by
    rcases hf : getMasterUserByCredentials db username with _ | u
    · simp [AuthController.login, hf] at hm
    · simp only [AuthController.login, hf] at hm
      split at hm
      · simp at hm
      · split at hm
        · simp at hm
        · simp only [Prod.fst] at hm
          cases hm
          rfl
  have h2 : pjws.expMinutes = 480 := by
    rcases hf : db.profiles.find? (fun p => p.username == pusername)
        with _ | pr
    · simp [ProfileAuthController.login, hf] at hp
    · simp only [ProfileAuthController.login, hf] at hp
      split at hp
      · simp at hp
      · rcases hmu : findMasterUserByID db masteruserID with _ | mu
        · simp [hmu] at hp
        · simp only [hmu] at hp
          split at hp
          · simp at hp
          · simp only [Prod.fst] at hp
            cases hp
            rfl
  refine ⟨h1, h2, ?_, ?_, ?_, ?_⟩ <;> omega

/-- Store for the C9 witness: one active MasterUser and one active Profile
(owned via an existing edge). -/
def C9wDB : DB :=
  ⟨[⟨1, "mu-1", "alice", "alice@mail", "555", "pw", "secret", none, none,
     true⟩],
   [⟨2, "pr-1", "paul", "paul@mail", "pw2", true⟩],
   [],
   [⟨1, 2, 1⟩]⟩

/-- C9, witness: both logins succeed concretely and the theorem yields the
issued TTLs. -/
theorem claimC9_witness :
    (IssuedJWS.mk "jti-m" "mu-1" 525600).expMinutes = 525600 ∧
    (IssuedJWS.mk "jti-p" "pr-1" 480).expMinutes = 480 ∧
    10080 ≤ (IssuedJWS.mk "jti-m" "mu-1" 525600).expMinutes ∧
    60 ≤ (IssuedJWS.mk "jti-p" "pr-1" 480).expMinutes ∧
    (IssuedJWS.mk "jti-p" "pr-1" 480).expMinutes ≤ 1440 ∧
    (IssuedJWS.mk "jti-p" "pr-1" 480).expMinutes <
      (IssuedJWS.mk "jti-m" "mu-1" 525600).expMinutes :=
  claimC9 C9wDB (fun h p => h == p) "alice" "pw" "jti-m" "mu-1" "paul" "pw2"
    "jti-p" 0 0 "d" "i" "d2" "i2" (IssuedJWS.mk "jti-m" "mu-1" 525600)
    (IssuedJWS.mk "jti-p" "pr-1" 480) (by decide) (by decide)

/-! ## Claim C5 -/

/-- A successful `updatePassword` ends in the store obtained by updating the
password and then deleting every session row keyed to the principal. -/
theorem updatePassword_ok_state (db : DB)
    (verifyPwd : String → String → Bool) (hashPwd : String → String)
    (mid cur npw cpw : String) (mu : MasterUser)
    (h1 : findMasterUserByID db mid = some mu)
    (h2 : (updatePassword db verifyPwd hashPwd mid cur npw cpw).1.isOk =
      true) :
    (updatePassword db verifyPwd hashPwd mid cur npw cpw).2 =
      deleteSessionsByMasterPK (updateMasterUserPassword db hashPwd mid npw)
        mu.masteruserPK := by
  cases hmid : jsTruthy mid
  · simp [updatePassword, hmid, Except.isOk, Except.toBool] at h2
  · cases hvp : verifyPwd mu.password cur
    · simp [updatePassword, hmid, h1, hvp, Except.isOk, Except.toBool] at h2
    · cases heq : npw == cpw
      · simp [updatePassword, hmid, h1, hvp, heq, Except.isOk,
              Except.toBool] at h2
      · simp [updatePassword, hmid, h1, hvp, heq]

/-- A successful `resetPassword` ends in the store obtained by updating the
password (and clearing the code) and then deleting every session row keyed
to the principal found by the reset token. -/
theorem resetPassword_ok_state (db : DB) (hashPwd : String → String)
    (tok npw cpw : String) (mu : MasterUser)
    (h1 : findMasterUserByForgotCode db tok = some mu)
    (h2 : (resetPassword db hashPwd tok npw cpw).1.isOk = true) :
    (resetPassword db hashPwd tok npw cpw).2 =
      deleteSessionsByMasterPK
        (updateMasterUserPasswordAndClearCode db hashPwd mu.masteruserID npw)
        mu.masteruserPK := by
  cases heq : npw == cpw
  · simp [resetPassword, heq, Except.isOk, Except.toBool] at h2
  · cases hact : mu.isActive
    · simp [resetPassword, heq, h1, hact, Except.isOk, Except.toBool] at h2
    · simp [resetPassword, heq, h1, hact]

/-- C5: after a successful `updatePassword` or `resetPassword` for a
principal, no session row keyed to that principal's internal key remains,
and consequently any token whose jti only ever matched session rows of that
principal fails session validation against the resulting store. -/
theorem claimC5 (db : DB) (verifyPwd : String → String → Bool)
    (hashPwd : String → String)
    (mid cur npw cpw tok npw2 cpw2 : String) (mu mu2 : MasterUser)
    (payload : JWTPayload) (now : Nat) (device ip : String)
    (h1 : findMasterUserByID db mid = some mu)
    (h2 : (updatePassword db verifyPwd hashPwd mid cur npw cpw).1.isOk =
      true)
    (h3 : findMasterUserByForgotCode db tok = some mu2)
    (h4 : (resetPassword db hashPwd tok npw2 cpw2).1.isOk = true)
    (h5 : ∀ s ∈ db.sessions, s.jwtId = payload.jti →
      s.masteruserPK = some mu.masteruserPK) :
    (∀ s ∈ (updatePassword db verifyPwd hashPwd mid cur npw cpw).2.sessions,
      s.masteruserPK ≠ some mu.masteruserPK)
    ∧ (∀ s ∈ (resetPassword db hashPwd tok npw2 cpw2).2.sessions,
      s.masteruserPK ≠ some mu2.masteruserPK)
    ∧ (hasMasterUserSession
        (updatePassword db verifyPwd hashPwd mid cur npw cpw).2
        (some payload) now device ip).1.isOk = false := by
  have hstate := updatePassword_ok_state db verifyPwd hashPwd mid cur npw cpw
    mu h1 h2
  have hstate2 := resetPassword_ok_state db hashPwd tok npw2 cpw2 mu2 h3 h4
  refine ⟨?_, ?_, ?_⟩
  · rw [hstate]
    intro s hs
    unfold deleteSessionsByMasterPK updateMasterUserPassword at hs
    simp only [List.mem_filter] at hs
    simpa using hs.2
  · rw [hstate2]
    intro s hs
    unfold deleteSessionsByMasterPK updateMasterUserPasswordAndClearCode at hs
    simp only [List.mem_filter] at hs
    simpa using hs.2
  · rw [hstate]
    have hfind : findSessionByJwtId
        (deleteSessionsByMasterPK (updateMasterUserPassword db hashPwd mid
          npw) mu.masteruserPK) payload.jti = none := by
      unfold findSessionByJwtId deleteSessionsByMasterPK
        updateMasterUserPassword
      rw [List.find?_eq_none]
      intro s hs
      simp only [List.mem_filter] at hs
      intro hj
      simp only [beq_iff_eq] at hj
      have := h5 s hs.1 hj
      simp [this] at hs
    cases hjti : jsTruthy payload.jti
    · simp [hasMasterUserSession, hjti, Except.isOk, Except.toBool]
    · simp [hasMasterUserSession, hjti, hfind, Except.isOk, Except.toBool]

/-- Store for the C5 witness: two active MasterUsers — one changing their
password, one resetting via the token — each with a live session. -/
def C5wDB : DB :=
  ⟨[⟨1, "mu-1", "alice", "alice@mail", "555", "h1", "s1", none, none, true⟩,
    ⟨2, "mu-2", "bob", "bob@mail", "556", "h2", "s2", none, some "tok-9",
     true⟩],
   [],
   [⟨"j1", "0", "ip", "dev", "0", some 1, none⟩,
    ⟨"j2", "0", "ip", "dev", "0", some 2, none⟩],
   []⟩

/-- C5, witness: both flows evaluated concretely; the token bound to the
deleted session is rejected afterwards. -/
theorem claimC5_witness :
    (∀ s ∈ (updatePassword C5wDB (fun h p => h == p) (fun p => p ++ "#")
        "mu-1" "h1" "n1" "n1").2.sessions, s.masteruserPK ≠ some 1)
    ∧ (∀ s ∈ (resetPassword C5wDB (fun p => p ++ "#")
        "tok-9" "n2" "n2").2.sessions, s.masteruserPK ≠ some 2)
    ∧ (hasMasterUserSession
        (updatePassword C5wDB (fun h p => h == p) (fun p => p ++ "#")
          "mu-1" "h1" "n1" "n1").2
        (some ⟨"j1", "mu-1"⟩) 7 "dev" "ip").1.isOk = false :=
  claimC5 C5wDB (fun h p => h == p) (fun p => p ++ "#") "mu-1" "h1" "n1" "n1"
    "tok-9" "n2" "n2"
    ⟨1, "mu-1", "alice", "alice@mail", "555", "h1", "s1", none, none, true⟩
    ⟨2, "mu-2", "bob", "bob@mail", "556", "h2", "s2", none, some "tok-9",
     true⟩
    ⟨"j1", "mu-1"⟩ 7 "dev" "ip"
    (by decide) (by decide) (by decide) (by decide) (by decide)

/-! ## Claim C7 -/

/-- C7: the delegated-access gate collapses every internal failure — absent
MasterUser, absent Profile, or absent Ownership Edge — to the one constant
`NoAccess` answer (404, fixed message), so its caller cannot tell which was
missing; and it lets the request through exactly when both principals are
found and the edge between their internal keys exists (in which case the
service returns that edge). -/
theorem claimC7 (db : DB) (mid pid : String) :
    (∀ err, MasterUserService.hasAccessToProfile db mid pid = .error err →
      Middleware.hasAccessToProfile db mid pid =
        some ⟨"Masteruser has no access to Profile", 404⟩)
    ∧
    (Middleware.hasAccessToProfile db mid pid = none ↔
      ∃ mu pr e, findMasterUserByID db mid = some mu ∧
        findProfileByID db pid = some pr ∧
        findEdge db mu.masteruserPK pr.profilePK = some e ∧
        MasterUserService.hasAccessToProfile db mid pid = .ok e) := by
  constructor
  · intro err herr
    simp [Middleware.hasAccessToProfile, herr]
  · rcases hmu : findMasterUserByID db mid with _ | mu
    · simp [Middleware.hasAccessToProfile,
            MasterUserService.hasAccessToProfile, hmu]
    · rcases hpr : findProfileByID db pid with _ | pr
      · simp [Middleware.hasAccessToProfile,
              MasterUserService.hasAccessToProfile, hmu, hpr]
      · rcases he : findEdge db mu.masteruserPK pr.profilePK with _ | e
        · simp [Middleware.hasAccessToProfile,
                MasterUserService.hasAccessToProfile, hmu, hpr, he]
        · constructor
          · intro _
            exact ⟨mu, pr, e, rfl, rfl, he,
              by simp [MasterUserService.hasAccessToProfile, hmu, hpr, he]⟩
          · intro _
            simp [Middleware.hasAccessToProfile,
                  MasterUserService.hasAccessToProfile, hmu, hpr, he]

/-- C7, witness: the equivalence evaluated on the C9 store, where the edge
exists. -/
theorem claimC7_witness :
    (∀ err, MasterUserService.hasAccessToProfile C9wDB "mu-1" "pr-1" =
        .error err →
      Middleware.hasAccessToProfile C9wDB "mu-1" "pr-1" =
        some ⟨"Masteruser has no access to Profile", 404⟩)
    ∧
    (Middleware.hasAccessToProfile C9wDB "mu-1" "pr-1" = none ↔
      ∃ mu pr e, findMasterUserByID C9wDB "mu-1" = some mu ∧
        findProfileByID C9wDB "pr-1" = some pr ∧
        findEdge C9wDB mu.masteruserPK pr.profilePK = some e ∧
        MasterUserService.hasAccessToProfile C9wDB "mu-1" "pr-1" = .ok e) :=
  claimC7 C9wDB "mu-1" "pr-1"

/-! ## Claim C6 -/

/-- The number of Ownership Edge rows for a given (MasterUser, Profile)
pair of internal keys. -/
def countEdges (db : DB) (mPK pPK : Nat) : Nat :=
  (db.masterUserToProfile.filter
    (fun e => e.masteruserPK == mPK && e.profilePK == pPK)).length

theorem find?_append_left_none {α} (p : α → Bool) (l1 l2 : List α)
    (h : l1.find? p = none) : (l1 ++ l2).find? p = l2.find? p := by
  induction l1 with
  | nil => rfl
  | cons a l ih =>
    rw [List.find?_cons] at h
    rcases hp : p a
    · rw [List.cons_append, List.find?_cons, hp]
      rw [hp] at h
      exact ih h
    · rw [hp] at h
      simp at h

/-- C6: granting the ownership edge is idempotent.  Provided the store is
consistent with the passed entities (looking them up by external id yields
exactly these rows) and satisfies the at-most-one-edge invariant, after one
`addProfileToMasterUser` call exactly one edge row exists for the pair, a
second call returns the store unchanged (a no-op, not an error), and the
access check succeeds after either call. -/
theorem claimC6 (db : DB) (M : MasterUser) (P : Profile)
    (hm : findMasterUserByID db M.masteruserID = some M)
    (hp : findProfileByID db P.profileID = some P)
    (hcount : countEdges db M.masteruserPK P.profilePK ≤ 1) :
    countEdges (MasterUserService.addProfileToMasterUser db M P)
        M.masteruserPK P.profilePK = 1
    ∧ MasterUserService.addProfileToMasterUser
        (MasterUserService.addProfileToMasterUser db M P) M P =
      MasterUserService.addProfileToMasterUser db M P
    ∧ (MasterUserService.hasAccessToProfile
        (MasterUserService.addProfileToMasterUser db M P) M.masteruserID
        P.profileID).isOk = true := by
  rcases he : findEdge db M.masteruserPK P.profilePK with _ | e
  · -- the edge is absent: the first call creates it
    have hsvc : MasterUserService.hasAccessToProfile db M.masteruserID
        P.profileID = .error .relationNotFound := by
      simp [MasterUserService.hasAccessToProfile, hm, hp, he]
    have hd1 : MasterUserService.addProfileToMasterUser db M P =
        { db with masterUserToProfile := db.masterUserToProfile ++
            [⟨M.masteruserPK, P.profilePK, 1⟩] } := by
      simp [MasterUserService.addProfileToMasterUser, hsvc]
    have hfe1 : findEdge { db with masterUserToProfile :=
        db.masterUserToProfile ++ [⟨M.masteruserPK, P.profilePK, 1⟩] }
        M.masteruserPK P.profilePK =
        some ⟨M.masteruserPK, P.profilePK, 1⟩ := by
      show (db.masterUserToProfile ++
        [(⟨M.masteruserPK, P.profilePK, 1⟩ : MasterUserToProfile)]).find?
          (fun e => e.masteruserPK == M.masteruserPK &&
            e.profilePK == P.profilePK) = _
      unfold findEdge at he
      rw [find?_append_left_none _ _ _ he]
      simp [List.find?_cons]
    have hsvc1 : MasterUserService.hasAccessToProfile
        { db with masterUserToProfile := db.masterUserToProfile ++
            [⟨M.masteruserPK, P.profilePK, 1⟩] } M.masteruserID
        P.profileID = .ok ⟨M.masteruserPK, P.profilePK, 1⟩ := by
      unfold MasterUserService.hasAccessToProfile
      rw [show findMasterUserByID { db with masterUserToProfile :=
        db.masterUserToProfile ++ [⟨M.masteruserPK, P.profilePK, 1⟩] }
        M.masteruserID = some M from hm]
      rw [show findProfileByID { db with masterUserToProfile :=
        db.masterUserToProfile ++ [⟨M.masteruserPK, P.profilePK, 1⟩] }
        P.profileID = some P from hp]
      simp [hfe1]
    refine ⟨?_, ?_, ?_⟩
    · rw [hd1]
      have hnil : db.masterUserToProfile.filter
          (fun e => e.masteruserPK == M.masteruserPK &&
            e.profilePK == P.profilePK) = [] := by
        rw [List.filter_eq_nil_iff]
        intro a ha
        have := List.find?_eq_none.mp he a ha
        simpa using this
      show ((db.masterUserToProfile ++
        [(⟨M.masteruserPK, P.profilePK, 1⟩ : MasterUserToProfile)]).filter
          (fun e => e.masteruserPK == M.masteruserPK &&
            e.profilePK == P.profilePK)).length = 1
      simp [List.filter_append, hnil]
    · rw [hd1]
      unfold MasterUserService.addProfileToMasterUser
      rw [hsvc1]
    · rw [hd1, hsvc1]
      rfl
  · -- the edge already exists: both calls are no-ops
    have hsvc : MasterUserService.hasAccessToProfile db M.masteruserID
        P.profileID = .ok e := by
      simp [MasterUserService.hasAccessToProfile, hm, hp, he]
    have hd1 : MasterUserService.addProfileToMasterUser db M P = db := by
      simp [MasterUserService.addProfileToMasterUser, hsvc]
    have he' : db.masterUserToProfile.find?
        (fun x => x.masteruserPK == M.masteruserPK &&
          x.profilePK == P.profilePK) = some e := he
    have hp1 := List.find?_some he'
    have hm1 := List.mem_of_find?_eq_some he'
    have hmem : e ∈ db.masterUserToProfile.filter
        (fun x => x.masteruserPK == M.masteruserPK &&
          x.profilePK == P.profilePK) :=
      List.mem_filter.mpr ⟨hm1, hp1⟩
    have hone : countEdges db M.masteruserPK P.profilePK = 1 := by
      unfold countEdges at hcount ⊢
      have h0 : 0 < (db.masterUserToProfile.filter
          (fun x => x.masteruserPK == M.masteruserPK &&
            x.profilePK == P.profilePK)).length :=
        List.length_pos.mpr (List.ne_nil_of_mem hmem)
      omega
    refine ⟨?_, ?_, ?_⟩
    · rw [hd1]
      exact hone
    · rw [hd1, hd1]
    · rw [hd1, hsvc]
      rfl

/-- Entities for the C6 witness. -/
def C6wUser : MasterUser :=
  ⟨1, "mu-1", "alice", "alice@mail", "555", "pw", "s", none, none, true⟩

/-- Profile for the C6 witness. -/
def C6wProfile : Profile := ⟨2, "pr-1", "paul", "paul@mail", "pw2", true⟩

/-- Store for the C6 witness: both principals present, no edge yet. -/
def C6wDB : DB := ⟨[C6wUser], [C6wProfile], [], []⟩

/-- C6, witness: granting twice from an edge-free store leaves exactly one
edge, the second call is a literal no-op, and the check succeeds. -/
theorem claimC6_witness :
    countEdges (MasterUserService.addProfileToMasterUser C6wDB C6wUser
        C6wProfile) 1 2 = 1
    ∧ MasterUserService.addProfileToMasterUser
        (MasterUserService.addProfileToMasterUser C6wDB C6wUser C6wProfile)
        C6wUser C6wProfile =
      MasterUserService.addProfileToMasterUser C6wDB C6wUser C6wProfile
    ∧ (MasterUserService.hasAccessToProfile
        (MasterUserService.addProfileToMasterUser C6wDB C6wUser C6wProfile)
        "mu-1" "pr-1").isOk = true :=
  claimC6 C6wDB C6wUser C6wProfile (by decide) (by decide) (by decide)

end NodeRestApi
